import Mathlib

/-!
Verification of the village_simulator repository's natural-language
specification against a shallow embedding of its Python source.

Embedding conventions:
* Machine floats are modelled as exact rationals (`ℚ`) where the program's
  logic is arithmetic/branching, and as reals (`ℝ`) where transcendental
  functions (`cos`, `log`) or integrals are involved.
* scipy's numeric inverse-CDF routines (`stats.gamma.ppf`,
  `stats.truncnorm.ppf`) are opaque numeric kernels even in the source; they
  are modelled as explicit function parameters, with their defining
  mathematical properties (positivity, range) taken as hypotheses where a
  claim needs them.
* pandas Series operations are elementwise; per-entity claims are embedded
  at a single entity or as `List` maps, mirroring the broadcasting of the
  source.
-/

namespace VillageSimulator

/-! ## utilities.py -/

/-- Embeds `_round_series_stochastic` (utilities.py lines 13-22) at one entry:
`values = (rounding_propensities < values - floor(values)) + floor(values)`,
cast to int.  The bool-to-number coercion of numpy is the 0/1 `if`. -/
def round_stochastic {α : Type} [LinearOrderedField α] [FloorRing α] (v u : α) : ℤ :=
  ⌊v⌋ + (if u < v - (⌊v⌋ : α) then 1 else 0)

/-- Embeds `get_next_annual_event_date` (utilities.py lines 44-57). Dates are
(year, month, day) triples; `pd.Timestamp(year, month, day)` is the triple
itself. -/
structure SimDate where
  year : ℕ
  month : ℕ
  day : ℕ
deriving DecidableEq, Repr

/-- Strict calendar order on dates (what `Timestamp` comparison computes at
day granularity). -/
def SimDate.earlier (a b : SimDate) : Prop :=
  a.year < b.year ∨
    (a.year = b.year ∧ (a.month < b.month ∨ (a.month = b.month ∧ a.day < b.day)))

instance (a b : SimDate) : Decidable (a.earlier b) := by
  unfold SimDate.earlier; infer_instance

/-- Embeds `get_next_annual_event_date` (utilities.py lines 44-57): take the
event's (month, day) in the clock's year if the clock is strictly before it,
otherwise in the following year. -/
def get_next_annual_event_date (clock_time : SimDate) (event_month event_day : ℕ) :
    SimDate :=
  if clock_time.month < event_month ∨
      (clock_time.month = event_month ∧ clock_time.day < event_day) then
    ⟨clock_time.year, event_month, event_day⟩
  else
    ⟨clock_time.year + 1, event_month, event_day⟩

/-! ## distributions.py -/

/-- A distribution parameter as passed to the ppf functions of
distributions.py: either a python scalar or a 2-d numpy array, of which only
the shape (rows, cols) matters for validation. -/
inductive NpParam where
  | scalar : NpParam
  | array (rows cols : ℕ) : NpParam
deriving DecidableEq, Repr

/-- The shapes of the non-scalar parameters, in order: embeds
`[v.shape for v in distribution_parameters if isinstance(v, np.ndarray)]`
(distributions.py line 107). -/
def parameterShapes (params : List NpParam) : List (ℕ × ℕ) :=
  params.filterMap fun p =>
    match p with
    | .scalar => none
    | .array r c => some (r, c)

/-- Embeds the validation of `_format_distribution_parameters`
(distributions.py lines 85-133): returns the common broadcast shape, or the
`ValueError` message the source raises.  The second message is the exact
string the source builds: its two adjacent string literals concatenate with
no separating space ("must have" directly followed by "the same length as
quantiles."). -/
def _format_distribution_parameters (quantiles_len : ℕ) (params : List NpParam) :
    Except String (ℕ × ℕ) :=
  match parameterShapes params with
  | [] => .ok (1, 1)
  | array_shape :: rest =>
    if ¬ (rest.all fun s => s == array_shape) then
      .error "All distribution parameters must have the same shape or be scalars."
    else if array_shape.2 = 1 ∧ array_shape.1 ≠ quantiles_len then
      .error "If distribution parameters are column vectors, they must havethe same length as quantiles."
    else if array_shape.1 ≠ 1 ∧ array_shape.2 ≠ 1 then
      .error "All distribution parameters must be one-dimensional or be scalars."
    else
      .ok array_shape

/-- Embeds `stretched_truncnorm_ppf` (distributions.py lines 32-82) up to the
point it can reach.  Its first statement unpacks the 3-tuple returned by
`_format_distribution_parameters quantiles loc scale` into the two targets
`quantiles, (loc, scale)`, so every call that passes validation raises
`ValueError: too many values to unpack (expected 2)`; no later line of the
function is reachable. -/
def stretched_truncnorm_ppf (quantiles_len : ℕ) (loc scale : NpParam) :
    Except String Unit :=
  match _format_distribution_parameters quantiles_len [loc, scale] with
  | .error e => .error e
  | .ok _ => .error "too many values to unpack (expected 2)"

/-- Embeds `zero_inflated_gamma_ppf` (distributions.py lines 8-29) at one
(quantile, parameter-column) pair, with scipy's `stats.gamma.ppf` kept
abstract as the parameter `gamma_ppf q shape scale`:
`np.where(quantiles > p_zero, gamma.ppf(quantiles, a=shape, scale=scale), 0.0)`. -/
def zero_inflated_gamma_ppf {α : Type} [LinearOrderedField α]
    (gamma_ppf : α → α → α → α) (q p_zero shape scale : α) : α :=
  if p_zero < q then gamma_ppf q shape scale else 0

/-- Embeds the broadcast of `zero_inflated_gamma_ppf` over a quantile vector
and row-vector parameters: entry (i, j) of the result compares quantile i
against entry j of `p_zero` and uses parameter column j (the mask
`quantiles.values[:, None] > p_zero` applied by `np.where`). -/
def zero_inflated_gamma_ppf_table {α : Type} [LinearOrderedField α]
    (gamma_ppf : α → α → α → α) (quantiles p_zeros shapes scales : List α) :
    List (List α) :=
  quantiles.map fun q =>
    List.zipWith3 (fun p sh sc => if p < q then gamma_ppf q sh sc else 0)
      p_zeros shapes scales

/-- Modelled from the spec, for comparison with the source only: zero for
`q ≤ p_zero`, otherwise the gamma inverse CDF at the rescaled quantile
`(q - p_zero) / (1 - p_zero)`. -/
def zero_inflated_gamma_ppf_spec {α : Type} [LinearOrderedField α]
    (gamma_ppf : α → α → α → α) (q p_zero shape scale : α) : α :=
  if q ≤ p_zero then 0 else gamma_ppf ((q - p_zero) / (1 - p_zero)) shape scale

/-! ## sampling.py -/

/-- scipy's `stats.truncnorm.ppf(q, a, b, loc, scale)` rescales the
standardized truncated-normal inverse CDF: `loc + scale * std_ppf q a b`,
where `std_ppf q a b` lies in the truncation interval `[a, b]` for quantiles
in `[0, 1)`.  `std_ppf` is kept abstract. -/
def truncnorm_ppf {α : Type} [LinearOrderedField α]
    (std_ppf : α → α → α → α) (q a b loc scale : α) : α :=
  loc + scale * std_ppf q a b

/-- Embeds `_stretched_truncnorm_ppf` (sampling.py lines 20-26): zero when
`loc == 0`; otherwise the source reassigns `scale = scale * loc`, sets
`a = -loc / scale` and returns
`truncnorm.ppf(quantiles, a=a, b=5, loc=loc, scale=scale)` elementwise. -/
def sampling_stretched_truncnorm_ppf {α : Type} [LinearOrderedField α]
    (std_ppf : α → α → α → α) (quantiles : List α) (loc scale : α) : List α :=
  if loc = 0 then quantiles.map fun _ => 0
  else quantiles.map fun q =>
    truncnorm_ppf std_ppf q (-loc / (scale * loc)) 5 loc (scale * loc)

/-! ## demographics.py -/

/-- Embeds `Demographics.on_time_step` (demographics.py lines 112-125) for
one village: `births = fertility_rate * female_population` (the female
population multiplies both fertility columns), `deaths = mortality_rate *
population` per column, `villages += births - deaths`, then stochastic
rounding with one uniform draw per column. -/
def demographics_on_time_step
    (female_population male_population : ℤ)
    (female_fertility male_fertility female_mortality male_mortality : ℚ)
    (female_draw male_draw : ℚ) : ℤ × ℤ :=
  (round_stochastic
      ((female_population : ℚ) + female_fertility * female_population
        - female_mortality * female_population) female_draw,
   round_stochastic
      ((male_population : ℚ) + male_fertility * female_population
        - male_mortality * male_population) male_draw)

/-! ## farming.py: mortality feedback -/

/-- Embeds `Wheat.modify_mortality_rate` (farming.py lines 215-228) at one
village index: `effect = (natural_consumption / actual_consumption) ** 10`,
`mortality_rate = target * effect`. -/
def modify_mortality_rate (natural_consumption actual_consumption target : ℚ) : ℚ :=
  target * (natural_consumption / actual_consumption) ^ (10 : ℕ)

/-! ## farming.py: harvest accumulation and calendar -/

/-- Modelled from the spec: the module defining `ONE_YEAR` is absent from the
provided sources; the spec fixes the year length at 365.25 days.  Times are
counted in days. -/
def ONE_YEAR : ℚ := 365.25

/-- The step interval crosses the harvest date: the guard
`clock_time < self.next_harvest_date <= clock_time + self.step_size()` of
farming.py lines 138 and 179 (equivalently, with
`event.time = clock_time + step_size`, the guard
`event.time - step_size < next_harvest_date <= event.time` of line 484). -/
def crosses_harvest (clock_time step_size next_harvest_date : ℚ) : Prop :=
  clock_time < next_harvest_date ∧ next_harvest_date ≤ clock_time + step_size

instance (t s nh : ℚ) : Decidable (crosses_harvest t s nh) := by
  unfold crosses_harvest; infer_instance

/-- Embeds `Wheat.harvest_quantity_source` (farming.py lines 169-184): the
projected wheat harvest on the step crossing the harvest date, 0 otherwise. -/
def harvest_quantity_source
    (clock_time step_size next_harvest_date projected_wheat_harvest : ℚ) : ℚ :=
  if crosses_harvest clock_time step_size next_harvest_date
  then projected_wheat_harvest else 0

/-- Embeds `Resource.on_time_step` (resources.py lines 119-129):
`stores -= consumption; stores += accumulation`. -/
def resource_on_time_step (stores consumption accumulation : ℚ) : ℚ :=
  stores - consumption + accumulation

/-- The wheat-stores update of `Wheat.on_time_step` (farming.py line 125
delegating to `Resource.on_time_step`), with the accumulation pipeline's
source `harvest_quantity_source`; `Wheat.register_accumulation` registers it
with `register_value_producer`, so no per-step rate rescaling applies and the
projected value is added once, as a lump. -/
def wheat_stores_on_time_step
    (clock_time step_size next_harvest_date projected_wheat_harvest
      stores consumption : ℚ) : ℚ :=
  resource_on_time_step stores consumption
    (harvest_quantity_source clock_time step_size next_harvest_date
      projected_wheat_harvest)

/-- The rainfall accumulator columns of `RainfallEffectOnWheat`. -/
structure RainfallCols where
  previously_dry : Bool
  cumulative_dry_days : ℚ
  rainfall_mid_growth : ℚ
  rainfall_late_growth : ℚ
deriving DecidableEq, Repr

/-- Embeds `RainfallEffectOnWheat.on_time_step_cleanup` (farming.py lines
469-489): set `previously_dry` from today's rainfall, advance the sowing and
harvest dates by one year when the step interval crosses them, and reset the
three rainfall accumulators to 0 when the harvest date is crossed.
`event_time` is `clock_time + step_size`.  Returns the updated columns and
the new (sowing, harvest) dates. -/
def rainfall_effect_on_time_step_cleanup
    (event_time step_size next_sowing_date next_harvest_date rainfall : ℚ)
    (cols : RainfallCols) : RainfallCols × ℚ × ℚ :=
  if event_time - step_size < next_harvest_date ∧ next_harvest_date ≤ event_time
  then (⟨decide (rainfall = 0), 0, 0, 0⟩,
        (if event_time - step_size < next_sowing_date ∧ next_sowing_date ≤ event_time
         then next_sowing_date + ONE_YEAR else next_sowing_date),
        next_harvest_date + ONE_YEAR)
  else (⟨decide (rainfall = 0), cols.cumulative_dry_days, cols.rainfall_mid_growth,
          cols.rainfall_late_growth⟩,
        (if event_time - step_size < next_sowing_date ∧ next_sowing_date ≤ event_time
         then next_sowing_date + ONE_YEAR else next_sowing_date),
        next_harvest_date)

/-! ## utilities.py: seasonal cycle -/

/-- Embeds `get_value_from_annual_cycle` (utilities.py lines 60-83) with an
explicit timestamp `min_date` (times are real-valued days): when both `min`
and `max` are given, `mean = (max + min) * 0.5` and
`amplitude = 0.5 * (max - min)`; giving exactly one of them raises a
`ConfigurationError`; the value is
`mean - amplitude * cos(2 * pi * (time - min_date) / ONE_YEAR)`. -/
noncomputable def get_value_from_annual_cycle
    (time mean amplitude : ℝ) (min? max? : Option ℝ) (min_date : ℝ) :
    Except String ℝ :=
  match min?, max? with
  | some mn, some mx =>
    .ok ((mx + mn) * 0.5
      - 0.5 * (mx - mn)
        * Real.cos (2 * Real.pi * ((time - min_date) / ((ONE_YEAR : ℚ) : ℝ))))
  | none, none =>
    .ok (mean
      - amplitude
        * Real.cos (2 * Real.pi * ((time - min_date) / ((ONE_YEAR : ℚ) : ℝ))))
  | _, _ => .error "Must provide either both or neither of 'min' and 'max'."

/-! ## Theorems -/

/-- Claim C10: for every clock time and every annual (month, day) event,
`get_next_annual_event_date` returns a date with the event's month and day
that is strictly after the clock's date; when the clock falls exactly on the
event's month and day the returned occurrence is in the following year. -/
theorem get_next_annual_event_date_strictly_future
    (clock_time : SimDate) (event_month event_day : ℕ) :
    (get_next_annual_event_date clock_time event_month event_day).month = event_month ∧
    (get_next_annual_event_date clock_time event_month event_day).day = event_day ∧
    clock_time.earlier (get_next_annual_event_date clock_time event_month event_day) ∧
    (clock_time.month = event_month ∧ clock_time.day = event_day →
      (get_next_annual_event_date clock_time event_month event_day).year
        = clock_time.year + 1) := by
  unfold get_next_annual_event_date SimDate.earlier
  split_ifs with h
  · refine ⟨rfl, rfl, Or.inr ⟨rfl, ?_⟩, ?_⟩
    · simpa using h
    · rintro ⟨hm, hd⟩
      exact absurd h (by omega)
  · exact ⟨rfl, rfl, Or.inl (Nat.lt_succ_self clock_time.year), fun _ => rfl⟩

/-- Witness for C10: a clock landing exactly on the event date (May 15) gets
next year's occurrence, strictly in the future. -/
theorem get_next_annual_event_date_strictly_future_witness :
    SimDate.earlier ⟨2025, 5, 15⟩ (get_next_annual_event_date ⟨2025, 5, 15⟩ 5 15) ∧
    (get_next_annual_event_date ⟨2025, 5, 15⟩ 5 15).year = 2025 + 1 :=
  ⟨(get_next_annual_event_date_strictly_future ⟨2025, 5, 15⟩ 5 15).2.2.1,
   (get_next_annual_event_date_strictly_future ⟨2025, 5, 15⟩ 5 15).2.2.2 ⟨rfl, rfl⟩⟩

/-- Claim C7: the wheat mortality modifier returns the base rate times
`(natural/actual)^10`, and whenever the actual (store-constrained) consumption
is strictly below the positive natural consumption and the base rate is
positive, the modified rate strictly exceeds the base rate. -/
theorem modify_mortality_rate_starvation
    (natural_consumption actual_consumption target : ℚ)
    (ha : 0 < actual_consumption) (han : actual_consumption < natural_consumption)
    (ht : 0 < target) :
    modify_mortality_rate natural_consumption actual_consumption target
      = target * (natural_consumption / actual_consumption) ^ (10 : ℕ) ∧
    target < modify_mortality_rate natural_consumption actual_consumption target := by
  refine ⟨rfl, ?_⟩
  unfold modify_mortality_rate
  have h1 : 1 < natural_consumption / actual_consumption := (one_lt_div ha).mpr han
  have h2 : 1 < (natural_consumption / actual_consumption) ^ (10 : ℕ) :=
    one_lt_pow₀ h1 (by norm_num)
  calc target = target * 1 := by ring
    _ < target * (natural_consumption / actual_consumption) ^ (10 : ℕ) :=
        (mul_lt_mul_left ht).mpr h2

/-- Witness for C7: actual consumption 1 below natural need 2, base rate 1:
the modified mortality rate exceeds the base rate. -/
theorem modify_mortality_rate_starvation_witness :
    (0 : ℚ) < 1 ∧ (1 : ℚ) < 2 ∧ (0 : ℚ) < 1 ∧
    (1 : ℚ) < modify_mortality_rate 2 1 1 :=
  ⟨by norm_num, by norm_num, by norm_num,
   (modify_mortality_rate_starvation 2 1 1 (by norm_num) (by norm_num) (by norm_num)).2⟩

set_option maxRecDepth 40000 in
/-- Claim C6 counterexample: for a column-vector parameter of the wrong
length the source raises a message whose two adjacent string literals
concatenate with no space, so the documented phrase
"must have the same length as quantiles" does not occur in the raised
message. -/
theorem format_parameters_message_counterexample :
    _format_distribution_parameters 4 [.array 2 1]
      = .error "If distribution parameters are column vectors, they must havethe same length as quantiles." ∧
    ¬ ("must have the same length as quantiles".data
        <:+: "If distribution parameters are column vectors, they must havethe same length as quantiles.".data) := by
  constructor
  · rfl
  · decide

/-- Claim C6 (amended): non-scalar parameters of unequal shapes raise the
"must have the same shape or be scalars" error; a column vector whose length
differs from the quantiles raises the error whose actual text reads
"must havethe same length as quantiles" (the two source string literals
concatenate with no space); a parameter with both dimensions exceeding one
raises the "must be one-dimensional" error; and two row vectors of different
lengths always fail. -/
theorem format_parameters_validation (quantiles_len : ℕ) (params : List NpParam)
    (r c : ℕ) (rest : List (ℕ × ℕ))
    (hshapes : parameterShapes params = (r, c) :: rest) :
    ((¬ ∀ s ∈ rest, s = (r, c)) →
      _format_distribution_parameters quantiles_len params
        = .error "All distribution parameters must have the same shape or be scalars.") ∧
    ((∀ s ∈ rest, s = (r, c)) → c = 1 → r ≠ quantiles_len →
      _format_distribution_parameters quantiles_len params
        = .error "If distribution parameters are column vectors, they must havethe same length as quantiles.") ∧
    ((∀ s ∈ rest, s = (r, c)) → r ≠ 1 → c ≠ 1 →
      _format_distribution_parameters quantiles_len params
        = .error "All distribution parameters must be one-dimensional or be scalars.") ∧
    ("must have the same shape or be scalars".data
      <:+: "All distribution parameters must have the same shape or be scalars.".data) ∧
    ("must be one-dimensional".data
      <:+: "All distribution parameters must be one-dimensional or be scalars.".data) ∧
    (∀ n m qlen : ℕ, n ≠ m →
      _format_distribution_parameters qlen [.array 1 n, .array 1 m]
        = .error "All distribution parameters must have the same shape or be scalars.") := by
  have hall : ((rest.all fun s => s == (r, c)) = true) ↔ ∀ s ∈ rest, s = (r, c) := by
    simp [List.all_eq_true]
  refine ⟨?_, ?_, ?_, by decide, by decide, ?_⟩
  · intro h
    unfold _format_distribution_parameters
    rw [hshapes]
    have hb : (rest.all fun s => s == (r, c)) = false := by
      cases hb' : rest.all fun s => s == (r, c)
      · rfl
      · exact absurd (hall.mp hb') h
    simp [hb]
  · intro hrest hc hr
    subst hc
    unfold _format_distribution_parameters
    rw [hshapes]
    have hb : (rest.all fun s => s == (r, 1)) = true := by
      rw [List.all_eq_true]
      intro s hs
      exact beq_iff_eq.mpr (hrest s hs)
    simp [hb, hr]
  · intro hrest hr hc
    unfold _format_distribution_parameters
    rw [hshapes]
    have hb : (rest.all fun s => s == (r, c)) = true := hall.mpr hrest
    simp [hb, hc, hr]
  · intro n m qlen hnm
    unfold _format_distribution_parameters parameterShapes
    simp [hnm]
    intro h
    exact absurd h.symm hnm

/-- Witness for C6: a 2×2 parameter raises the "one-dimensional" error. -/
theorem format_parameters_validation_witness :
    parameterShapes [NpParam.array 2 2] = [(2, 2)] ∧
    _format_distribution_parameters 4 [NpParam.array 2 2]
      = .error "All distribution parameters must be one-dimensional or be scalars." :=
  ⟨by decide,
   (format_parameters_validation 4 [NpParam.array 2 2] 2 2 [] (by decide)).2.2.1
     (by simp) (by decide) (by decide)⟩

/-- Claim C4: every call of distributions.py's `stretched_truncnorm_ppf`
raises a `ValueError` - the tuple returned by
`_format_distribution_parameters` has three components but is unpacked into
two targets - so the `loc == 0` calls that the spec (and the repository's own
tests and docstring) say return exactly 0 never return at all. -/
theorem stretched_truncnorm_ppf_always_raises
    (quantiles_len : ℕ) (loc scale : NpParam) :
    ∀ u : Unit, stretched_truncnorm_ppf quantiles_len loc scale ≠ .ok u := by
  intro u
  unfold stretched_truncnorm_ppf
  cases h : _format_distribution_parameters quantiles_len [loc, scale] <;> simp

/-- Claim C1 counterexample: instantiating the abstract gamma inverse CDF at
the true Gamma(1, 1) inverse CDF, `fun q => -log (1 - q)`, the source
evaluates it at the raw quantile, not at the rescaled quantile
`(q - p_zero) / (1 - p_zero)` the spec describes: at `q = 3/4`,
`p_zero = 1/2` the two values differ. -/
theorem zero_inflated_gamma_ppf_no_rescaling :
    zero_inflated_gamma_ppf (fun q _ _ => -Real.log (1 - q)) (3/4 : ℝ) (1/2) 1 1
      ≠ zero_inflated_gamma_ppf_spec (fun q _ _ => -Real.log (1 - q)) (3/4 : ℝ) (1/2) 1 1 := by
  have hcode : zero_inflated_gamma_ppf (fun q _ _ => -Real.log (1 - q)) (3/4 : ℝ) (1/2) 1 1
      = -Real.log (1/4) := by
    unfold zero_inflated_gamma_ppf
    rw [if_pos (by norm_num : (1/2 : ℝ) < 3/4)]
    norm_num
  have hspec : zero_inflated_gamma_ppf_spec (fun q _ _ => -Real.log (1 - q)) (3/4 : ℝ) (1/2) 1 1
      = -Real.log (1/2) := by
    unfold zero_inflated_gamma_ppf_spec
    rw [if_neg (by norm_num : ¬ (3/4 : ℝ) ≤ 1/2)]
    norm_num
  rw [hcode, hspec]
  intro h
  have hlt : Real.log (1/4) < Real.log (1/2) :=
    Real.log_lt_log (by norm_num) (by norm_num)
  exact absurd (neg_inj.mp h) hlt.ne

/-- Claim C1 (amended): the source returns 0 exactly when `q ≤ p_zero`, and
otherwise the gamma inverse CDF at the raw quantile `q` - strictly positive
whenever the gamma inverse CDF is positive on (0, 1), `p_zero ≥ 0` and
`q < 1`; for vector `p_zero` the same rule applies elementwise per column. -/
theorem zero_inflated_gamma_ppf_correct {α : Type} [LinearOrderedField α]
    (gamma_ppf : α → α → α → α) (q p_zero shape scale : α)
    (hp : 0 ≤ p_zero) (hq : q < 1)
    (hpos : ∀ x, 0 < x → x < 1 → 0 < gamma_ppf x shape scale) :
    (q ≤ p_zero → zero_inflated_gamma_ppf gamma_ppf q p_zero shape scale = 0) ∧
    (p_zero < q →
      zero_inflated_gamma_ppf gamma_ppf q p_zero shape scale
        = gamma_ppf q shape scale ∧
      0 < zero_inflated_gamma_ppf gamma_ppf q p_zero shape scale) ∧
    (∀ quantiles p_zeros shapes scales : List α,
      zero_inflated_gamma_ppf_table gamma_ppf quantiles p_zeros shapes scales
        = quantiles.map fun q' =>
            List.zipWith3
              (fun p' sh sc => zero_inflated_gamma_ppf gamma_ppf q' p' sh sc)
              p_zeros shapes scales) := by
  refine ⟨?_, ?_, ?_⟩
  · intro h
    exact if_neg (not_lt.mpr h)
  · intro h
    have heq : zero_inflated_gamma_ppf gamma_ppf q p_zero shape scale
        = gamma_ppf q shape scale := if_pos h
    refine ⟨heq, ?_⟩
    rw [heq]
    exact hpos q (lt_of_le_of_lt hp h) hq
  · intro quantiles p_zeros shapes scales
    rfl

/-- Witness for C1 (amended), at the uniform inverse CDF (positive on (0,1))
with `q = 3/4 > p_zero = 1/2`. -/
theorem zero_inflated_gamma_ppf_correct_witness :
    (0 : ℚ) ≤ 1/2 ∧ (3/4 : ℚ) < 1 ∧ ((1/2 : ℚ) < 3/4) ∧
    zero_inflated_gamma_ppf (fun x _ _ => x) (3/4 : ℚ) (1/2) 1 1 = 3/4 ∧
    0 < zero_inflated_gamma_ppf (fun x _ _ => x) (3/4 : ℚ) (1/2) 1 1 :=
  ⟨by norm_num, by norm_num, by norm_num,
   ((zero_inflated_gamma_ppf_correct (fun x _ _ => x) (3/4 : ℚ) (1/2) 1 1
      (by norm_num) (by norm_num) (fun x hx _ => hx)).2.1 (by norm_num)).1,
   ((zero_inflated_gamma_ppf_correct (fun x _ _ => x) (3/4 : ℚ) (1/2) 1 1
      (by norm_num) (by norm_num) (fun x hx _ => hx)).2.1 (by norm_num)).2⟩

/-- Claim C9: the sampler truncates from above at the fixed standardized
bound b = 5: with loc > 0, scale > 0, quantiles in [0, 1), and the
standardized truncated-normal inverse CDF taking values inside its truncation
interval, every sample of sampling.py's `_stretched_truncnorm_ppf` is at most
`loc + 5 * (scale * loc)`. -/
theorem sampling_stretched_truncnorm_ppf_upper_bound
    (std_ppf : ℚ → ℚ → ℚ → ℚ) (quantiles : List ℚ) (loc scale : ℚ)
    (hloc : 0 < loc) (hscale : 0 < scale)
    (hstd : ∀ q a b, 0 ≤ q → q < 1 → a ≤ b → std_ppf q a b ≤ b)
    (hq : ∀ q ∈ quantiles, 0 ≤ q ∧ q < 1) :
    ∀ x ∈ sampling_stretched_truncnorm_ppf std_ppf quantiles loc scale,
      x ≤ loc + 5 * (scale * loc) := by
  intro x hx
  unfold sampling_stretched_truncnorm_ppf at hx
  rw [if_neg hloc.ne'] at hx
  simp only [List.mem_map] at hx
  obtain ⟨q, hqmem, rfl⟩ := hx
  obtain ⟨hq0, hq1⟩ := hq q hqmem
  unfold truncnorm_ppf
  have hscale' : 0 < scale * loc := mul_pos hscale hloc
  have ha : -loc / (scale * loc) ≤ 5 := by
    rw [neg_div]
    have h0 : 0 ≤ loc / (scale * loc) := (div_pos hloc hscale').le
    linarith
  have hb := hstd q (-loc / (scale * loc)) 5 hq0 hq1 ha
  have h5 : (scale * loc) * std_ppf q (-loc / (scale * loc)) 5 ≤ (scale * loc) * 5 :=
    mul_le_mul_of_nonneg_left hb hscale'.le
  linarith

/-- Witness for C9: a standardized ppf pinned to its lower bound, one
quantile, loc = scale = 1; the sample is bounded by `1 + 5 * (1 * 1)`. -/
theorem sampling_stretched_truncnorm_ppf_upper_bound_witness :
    (0 : ℚ) < 1 ∧
    ∀ x ∈ sampling_stretched_truncnorm_ppf (fun _ a _ => a) [1/2] (1 : ℚ) 1,
      x ≤ 1 + 5 * (1 * 1) :=
  ⟨by norm_num,
   sampling_stretched_truncnorm_ppf_upper_bound (fun _ a _ => a) [1/2] 1 1
     (by norm_num) (by norm_num) (fun _ _ _ _ _ hab => hab)
     (by
       intro q hq
       rw [List.mem_singleton] at hq
       subst hq
       constructor <;> norm_num)⟩

/-- Claim C2 counterexample: a sampled per-step mortality rate of 2 (the
normal mortality distribution is unbounded) drives a village of 10 women to a
negative female population after the stochastic rounding; the code has no
clamp at zero. -/
theorem demographics_on_time_step_can_go_negative :
    (demographics_on_time_step 10 10 0 0 2 0 (1/2) (1/2)).1 < 0 := by
  norm_num [demographics_on_time_step, round_stochastic]

/-- Helper: stochastic rounding of a non-negative value is non-negative. -/
theorem round_stochastic_nonneg {α : Type} [LinearOrderedField α] [FloorRing α]
    (v u : α) (hv : 0 ≤ v) : 0 ≤ round_stochastic v u := by
  unfold round_stochastic
  have h : (0 : ℤ) ≤ ⌊v⌋ := Int.floor_nonneg.mpr hv
  split_ifs <;> omega

/-- Claim C2 (amended): after the Demographics time-step update the per-sex
populations are integers (by construction of the stochastic rounding), and
they are non-negative provided the step starts from non-negative populations
and every sampled fertility rate is non-negative and every sampled per-step
mortality rate is at most 1. -/
theorem demographics_on_time_step_nonneg
    (female_population male_population : ℤ)
    (female_fertility male_fertility female_mortality male_mortality : ℚ)
    (female_draw male_draw : ℚ)
    (hf : 0 ≤ female_population) (hm : 0 ≤ male_population)
    (hff : 0 ≤ female_fertility) (hmf : 0 ≤ male_fertility)
    (hfm0 : 0 ≤ female_mortality) (hfm1 : female_mortality ≤ 1)
    (hmm0 : 0 ≤ male_mortality) (hmm1 : male_mortality ≤ 1) :
    0 ≤ (demographics_on_time_step female_population male_population
          female_fertility male_fertility female_mortality male_mortality
          female_draw male_draw).1 ∧
    0 ≤ (demographics_on_time_step female_population male_population
          female_fertility male_fertility female_mortality male_mortality
          female_draw male_draw).2 := by
  have hfq : (0 : ℚ) ≤ (female_population : ℚ) := by exact_mod_cast hf
  have hmq : (0 : ℚ) ≤ (male_population : ℚ) := by exact_mod_cast hm
  constructor
  · apply round_stochastic_nonneg
    nlinarith [mul_nonneg hfq hff, mul_nonneg hfq (sub_nonneg.mpr hfm1)]
  · apply round_stochastic_nonneg
    nlinarith [mul_nonneg hmq (sub_nonneg.mpr hmm1), mul_nonneg hmf hfq]

/-- Witness for C2 (amended): 100 women and men, fertility 1/20, per-step
mortality 1/25 - both populations stay non-negative. -/
theorem demographics_on_time_step_nonneg_witness :
    (0 : ℤ) ≤ 100 ∧ (0 : ℚ) ≤ 1/20 ∧ (1/25 : ℚ) ≤ 1 ∧
    0 ≤ (demographics_on_time_step 100 100 (1/20) (1/20) (1/25) (1/25)
          (1/2) (1/2)).1 ∧
    0 ≤ (demographics_on_time_step 100 100 (1/20) (1/20) (1/25) (1/25)
          (1/2) (1/2)).2 :=
  ⟨by norm_num, by norm_num, by norm_num,
   (demographics_on_time_step_nonneg 100 100 (1/20) (1/20) (1/25) (1/25)
      (1/2) (1/2) (by norm_num) (by norm_num) (by norm_num) (by norm_num)
      (by norm_num) (by norm_num) (by norm_num) (by norm_num)).1,
   (demographics_on_time_step_nonneg 100 100 (1/20) (1/20) (1/25) (1/25)
      (1/2) (1/2) (by norm_num) (by norm_num) (by norm_num) (by norm_num)
      (by norm_num) (by norm_num) (by norm_num) (by norm_num)).2⟩

/-- Claim C3 counterexample: on the harvest-crossing step the stores update
subtracts the same step's consumption in the same statement, so with
projected yield 8, stores 4 and consumption 1 the stores increase by 7, not
by exactly the projected 8. -/
theorem wheat_stores_increase_includes_consumption :
    crosses_harvest 0 1 (1/2) ∧
    wheat_stores_on_time_step 0 1 (1/2) 8 4 1 - 4 ≠ 8 := by
  constructor
  · exact ⟨by norm_num, by norm_num⟩
  · norm_num [wheat_stores_on_time_step, resource_on_time_step,
      harvest_quantity_source, crosses_harvest]

/-- Claim C3 (amended): the harvest is a one-time lump accumulation: on a step whose
interval crosses the harvest date the accumulation contribution to
`wheat_stores` is exactly the pre-harvest `projected_wheat_harvest` (stores
change by that lump minus the step's consumption), and at that step's cleanup
all three rainfall accumulators are reset to 0 and the harvest date advances
one year; on a step not crossing the harvest date the accumulation
contribution is 0; and along a run with fixed positive step size at most one
step interval crosses a given harvest date. -/
theorem wheat_harvest_lump_accumulation
    (clock_time step_size next_harvest_date next_sowing_date
      projected_wheat_harvest stores consumption rainfall : ℚ)
    (cols : RainfallCols) (hs : 0 < step_size) :
    (crosses_harvest clock_time step_size next_harvest_date →
      harvest_quantity_source clock_time step_size next_harvest_date
          projected_wheat_harvest = projected_wheat_harvest ∧
      wheat_stores_on_time_step clock_time step_size next_harvest_date
          projected_wheat_harvest stores consumption
        = stores + projected_wheat_harvest - consumption ∧
      (rainfall_effect_on_time_step_cleanup (clock_time + step_size) step_size
          next_sowing_date next_harvest_date rainfall cols).1.cumulative_dry_days
        = 0 ∧
      (rainfall_effect_on_time_step_cleanup (clock_time + step_size) step_size
          next_sowing_date next_harvest_date rainfall cols).1.rainfall_mid_growth
        = 0 ∧
      (rainfall_effect_on_time_step_cleanup (clock_time + step_size) step_size
          next_sowing_date next_harvest_date rainfall cols).1.rainfall_late_growth
        = 0 ∧
      (rainfall_effect_on_time_step_cleanup (clock_time + step_size) step_size
          next_sowing_date next_harvest_date rainfall cols).2.2
        = next_harvest_date + ONE_YEAR) ∧
    (¬ crosses_harvest clock_time step_size next_harvest_date →
      harvest_quantity_source clock_time step_size next_harvest_date
          projected_wheat_harvest = 0 ∧
      wheat_stores_on_time_step clock_time step_size next_harvest_date
          projected_wheat_harvest stores consumption
        = stores - consumption) ∧
    (∀ k k' : ℕ,
      crosses_harvest (clock_time + k * step_size) step_size next_harvest_date →
      crosses_harvest (clock_time + k' * step_size) step_size next_harvest_date →
      k = k') := by
  refine ⟨?_, ?_, ?_⟩
  · intro hcross
    obtain ⟨h1, h2⟩ := hcross
    have hcond : (clock_time + step_size) - step_size < next_harvest_date ∧
        next_harvest_date ≤ clock_time + step_size := ⟨by linarith, h2⟩
    have hq : harvest_quantity_source clock_time step_size next_harvest_date
        projected_wheat_harvest = projected_wheat_harvest := if_pos ⟨h1, h2⟩
    have hclean : rainfall_effect_on_time_step_cleanup (clock_time + step_size)
        step_size next_sowing_date next_harvest_date rainfall cols
        = (⟨decide (rainfall = 0), 0, 0, 0⟩,
           (if (clock_time + step_size) - step_size < next_sowing_date ∧
               next_sowing_date ≤ clock_time + step_size
            then next_sowing_date + ONE_YEAR else next_sowing_date),
           next_harvest_date + ONE_YEAR) := by
      unfold rainfall_effect_on_time_step_cleanup
      rw [if_pos hcond]
    refine ⟨hq, ?_, ?_, ?_, ?_, ?_⟩
    · unfold wheat_stores_on_time_step resource_on_time_step
      rw [hq]; ring
    · rw [hclean]
    · rw [hclean]
    · rw [hclean]
    · rw [hclean]
  · intro hcross
    have hq : harvest_quantity_source clock_time step_size next_harvest_date
        projected_wheat_harvest = 0 := if_neg hcross
    refine ⟨hq, ?_⟩
    unfold wheat_stores_on_time_step resource_on_time_step
    rw [hq]; ring
  · intro k k' hk hk'
    by_contra hne
    obtain ⟨hk1, hk2⟩ := hk
    obtain ⟨hk1', hk2'⟩ := hk'
    rcases Nat.lt_or_ge k k' with h | h
    · have hle : (k : ℚ) + 1 ≤ (k' : ℚ) := by exact_mod_cast Nat.succ_le_of_lt h
      have := mul_le_mul_of_nonneg_right hle hs.le
      linarith
    · have h' : k' < k := lt_of_le_of_ne h fun he => hne he.symm
      have hle : (k' : ℚ) + 1 ≤ (k : ℚ) := by exact_mod_cast Nat.succ_le_of_lt h'
      have := mul_le_mul_of_nonneg_right hle hs.le
      linarith

/-- Witness for C3: step size 1 crossing a harvest at time 1/2, projected
yield 7, stores 3, consumption 1: stores become 3 + 7 - 1 and the dry-day
accumulator resets. -/
theorem wheat_harvest_lump_accumulation_witness :
    (0 : ℚ) < 1 ∧ crosses_harvest 0 1 (1/2) ∧
    wheat_stores_on_time_step 0 1 (1/2) 7 3 1 = 3 + 7 - 1 ∧
    (rainfall_effect_on_time_step_cleanup (0 + 1) 1 100 (1/2) 0
        ⟨false, 5, 6, 7⟩).1.cumulative_dry_days = 0 := by
  have hs : (0 : ℚ) < 1 := by norm_num
  have hcr : crosses_harvest 0 1 (1/2) := ⟨by norm_num, by norm_num⟩
  have h := (wheat_harvest_lump_accumulation 0 1 (1/2) 100 7 3 1 0
      ⟨false, 5, 6, 7⟩ hs).1 hcr
  exact ⟨hs, hcr, h.2.1, h.2.2.1⟩

/-- Claim C8: with both `min < max` given, the seasonal value is
`mean - amplitude * cos(2 pi (time - min_date) / 365.25)` with
`mean = (max + min)/2` and `amplitude = (max - min)/2`; it equals exactly
`min` at `time = min_date` and exactly `max` at `time = min_date + 182.625`
(half a 365.25-day year later). -/
theorem get_value_from_annual_cycle_min_max
    (mn mx min_date tm mean amplitude : ℝ) (h : mn < mx) :
    get_value_from_annual_cycle tm mean amplitude (some mn) (some mx) min_date
      = .ok ((mx + mn) * 0.5
          - 0.5 * (mx - mn)
            * Real.cos (2 * Real.pi * ((tm - min_date) / ((ONE_YEAR : ℚ) : ℝ)))) ∧
    get_value_from_annual_cycle min_date mean amplitude (some mn) (some mx) min_date
      = .ok mn ∧
    get_value_from_annual_cycle (min_date + 182.625) mean amplitude (some mn)
        (some mx) min_date
      = .ok mx := by
  refine ⟨rfl, ?_, ?_⟩
  · unfold get_value_from_annual_cycle
    rw [show min_date - min_date = (0:ℝ) by ring]
    rw [zero_div, mul_zero, Real.cos_zero]
    ring
  · unfold get_value_from_annual_cycle
    have hyear : ((ONE_YEAR : ℚ) : ℝ) = 365.25 := by norm_num [ONE_YEAR]
    rw [show min_date + 182.625 - min_date = (182.625 : ℝ) by ring, hyear]
    rw [show (182.625 : ℝ) / 365.25 = 1/2 by norm_num]
    rw [show 2 * Real.pi * (1/2 : ℝ) = Real.pi by ring, Real.cos_pi]
    ring

/-- Witness for C8: min 0, max 2 - the value is 0 at the minimum date and 2
half a year later. -/
theorem get_value_from_annual_cycle_min_max_witness :
    (0 : ℝ) < 2 ∧
    get_value_from_annual_cycle 0 0 1 (some 0) (some 2) 0 = .ok 0 ∧
    get_value_from_annual_cycle (0 + 182.625) 0 1 (some 0) (some 2) 0 = .ok 2 :=
  ⟨by norm_num,
   (get_value_from_annual_cycle_min_max 0 2 0 0 0 1 (by norm_num)).2.1,
   (get_value_from_annual_cycle_min_max 0 2 0 0 0 1 (by norm_num)).2.2⟩

/-- Claim C5: `round_stochastic` returns `floor(v) + 1` exactly when the
uniform draw is below the fractional part `v - floor(v)`, else `floor(v)`;
consequently its expectation over a uniform draw on [0, 1) is exactly `v`. -/
theorem round_stochastic_unbiased (v : ℝ) :
    (∀ u : ℝ, round_stochastic v u
      = if u < Int.fract v then ⌊v⌋ + 1 else ⌊v⌋) ∧
    (∫ u in (0:ℝ)..1, ((round_stochastic v u : ℤ) : ℝ)) = v := by
  have hfr : v - (⌊v⌋ : ℝ) = Int.fract v := rfl
  constructor
  · intro u
    unfold round_stochastic
    rw [hfr]
    split_ifs <;> omega
  · have hc0 : 0 ≤ Int.fract v := Int.fract_nonneg v
    have hc1 : Int.fract v < 1 := Int.fract_lt_one v
    have hmem : Int.fract v ∈ Set.Icc (0:ℝ) 1 := ⟨hc0, hc1.le⟩
    have hcongr : ∀ᵐ x : ℝ, x ∈ Set.uIoc (0:ℝ) 1 →
        ((round_stochastic v x : ℤ) : ℝ)
          = (⌊v⌋ : ℝ)
            + Set.indicator {y : ℝ | y ≤ Int.fract v} (fun _ => (1:ℝ)) x := by
      have hne : ∀ᵐ x : ℝ, x ≠ Int.fract v := by
        refine MeasureTheory.mem_ae_iff.mpr ?_
        have hcompl : {x : ℝ | x ≠ Int.fract v}ᶜ = {Int.fract v} := by
          ext x; simp
        rw [hcompl]
        exact Real.volume_singleton
      filter_upwards [hne] with x hx _
      unfold round_stochastic
      push_cast [apply_ite (fun z : ℤ => (z : ℝ))]
      rw [hfr]
      by_cases hlt : x < Int.fract v
      · rw [if_pos hlt, Set.indicator_apply,
          if_pos (show x ∈ {y : ℝ | y ≤ Int.fract v} from le_of_lt hlt)]
      · rw [if_neg hlt, Set.indicator_apply,
          if_neg (show x ∉ {y : ℝ | y ≤ Int.fract v} from
            fun hmem' => hlt (lt_of_le_of_ne hmem' hx))]
    have hind : IntervalIntegrable
        (Set.indicator {y : ℝ | y ≤ Int.fract v} fun _ => (1:ℝ))
        MeasureTheory.volume 0 1 := by
      rw [intervalIntegrable_iff]
      refine MeasureTheory.Integrable.indicator ?_ measurableSet_Iic
      refine MeasureTheory.integrableOn_const.mpr (Or.inr ?_)
      rw [Set.uIoc_of_le zero_le_one]
      exact measure_Ioc_lt_top
    rw [intervalIntegral.integral_congr_ae hcongr]
    rw [intervalIntegral.integral_add intervalIntegrable_const hind]
    rw [intervalIntegral.integral_indicator hmem]
    rw [intervalIntegral.integral_const, intervalIntegral.integral_const]
    have hfloor := Int.floor_add_fract v
    simp only [smul_eq_mul]
    linarith

end VillageSimulator
